import Mathlib

/-!
Verification development for the orbital-ai-explorer retrieval and training
pipeline (ai-service).  The definitions below are shallow embeddings of the
Python sources:

* `app/core/vector_embeddings.py`  — VectorEmbeddingManager
* `app/api/endpoints/model_training.py` — training job orchestration
* `app/api/endpoints/data_ingestion.py` — record normalizers
* `app/api/endpoints/chat.py` — trained-model chat endpoint

Machine floats are modelled as rationals where the code only compares,
sorts or stores them, and as reals where logarithms appear (TF-IDF).
-/

namespace Orbital

/-- A search result dictionary as built by `VectorEmbeddingManager`
search paths (keys rank, similarity, document, metadata, input, output). -/
structure SearchResult where
  rank : Nat
  similarity : ℚ
  document : String
  metadata : List (String × String)
  input : String
  output : String
deriving DecidableEq, Repr

/-- Python `text.lower()` (ASCII), written over the character list so that
it computes by kernel reduction. -/
def pyLower (s : String) : String :=
  String.mk (s.toList.map Char.toLower)

/-- Python `str.split()` with no argument: split on whitespace,
discarding empty pieces (so runs of whitespace act as one separator). -/
def pySplit (s : String) : List String :=
  ((s.toList.splitOnP Char.isWhitespace).map String.mk).filter (fun w => w ≠ "")

/-- Python `set(text.lower().split())`: the distinct lowercased whitespace
tokens of a text (represented as a duplicate-free list). -/
def wordSet (text : String) : List String :=
  (pySplit (pyLower text)).dedup

/-- Jaccard similarity used by `_simple_text_search`:
`intersection / union if union > 0 else 0` on the two word sets
(`q` and `d` are duplicate-free). -/
def jaccard (q d : List String) : ℚ :=
  let inter := (q.filter (fun w => w ∈ d)).length
  let union := (q ++ d).dedup.length
  if 0 < union then (inter : ℚ) / union else 0

/-- The `scores` list built by `_simple_text_search` before sorting: one
`(score, i)` pair per stored document, in storage order. -/
def scoredDocs (query : String) (documents : List String) : List (ℚ × ℕ) :=
  let queryWords := wordSet query
  documents.enum.map (fun p => (jaccard queryWords (wordSet p.2), p.1))

/-- Descending lexicographic comparison on `(score, index)` pairs:
`revLex a b` holds when `a` sorts no later than `b` under Python
`list.sort(reverse=True)` over tuples. -/
def revLex (a b : ℚ × ℕ) : Prop :=
  b.1 < a.1 ∨ (b.1 = a.1 ∧ b.2 ≤ a.2)

instance : DecidableRel revLex := fun a b => by
  unfold revLex; infer_instance

instance : IsTotal (ℚ × ℕ) revLex := by
  constructor
  intro a b
  rcases lt_trichotomy a.1 b.1 with h | h | h
  · exact Or.inr (Or.inl h)
  · rcases le_total b.2 a.2 with h2 | h2
    · exact Or.inl (Or.inr ⟨h.symm, h2⟩)
    · exact Or.inr (Or.inr ⟨h, h2⟩)
  · exact Or.inl (Or.inl h)

instance : IsTrans (ℚ × ℕ) revLex := by
  constructor
  rintro a b c (hab | ⟨hab, hab2⟩) (hbc | ⟨hbc, hbc2⟩)
  · exact Or.inl (hbc.trans hab)
  · exact Or.inl (hbc ▸ hab)
  · exact Or.inl (hab ▸ hbc)
  · exact Or.inr ⟨hbc.trans hab, hbc2.trans hab2⟩

/-- Python `scores.sort(reverse=True)` on the distinct `(score, index)`
tuples: the stable reverse sort produces the unique strictly descending
lexicographic ordering, which insertion sort under the total relation
`revLex` also produces. -/
def sortRevLex (l : List (ℚ × ℕ)) : List (ℚ × ℕ) :=
  l.insertionSort revLex

/-- Shallow embedding of `VectorEmbeddingManager._simple_text_search`:
Jaccard-score every stored document against the query word set, sort the
`(score, index)` pairs in reverse, walk the first `top_k` of them with
`enumerate`, and keep only entries with positive score. -/
def simpleTextSearch (query : String) (topK : ℕ) (documents : List String) :
    List SearchResult :=
  let scores := scoredDocs query documents
  let sorted := sortRevLex scores
  (sorted.take topK).enum.filterMap (fun p =>
    if 0 < p.2.1 then
      some { rank := p.1 + 1
             similarity := p.2.1
             document := documents.getD p.2.2 ""
             metadata := []
             input := ""
             output := "" }
    else none)

/-- Ascending lexicographic comparison on `(value, index)` pairs, used to
model `np.argsort` deterministically (ties resolved by index). -/
def ascLex (a b : ℚ × ℕ) : Prop :=
  a.1 < b.1 ∨ (a.1 = b.1 ∧ a.2 ≤ b.2)

instance : DecidableRel ascLex := fun a b => by
  unfold ascLex; infer_instance

instance : IsTotal (ℚ × ℕ) ascLex := by
  constructor
  intro a b
  rcases lt_trichotomy a.1 b.1 with h | h | h
  · exact Or.inl (Or.inl h)
  · rcases le_total a.2 b.2 with h2 | h2
    · exact Or.inl (Or.inr ⟨h, h2⟩)
    · exact Or.inr (Or.inr ⟨h.symm, h2⟩)
  · exact Or.inr (Or.inl h)

instance : IsTrans (ℚ × ℕ) ascLex := by
  constructor
  rintro a b c (hab | ⟨hab, hab2⟩) (hbc | ⟨hbc, hbc2⟩)
  · exact Or.inl (hab.trans hbc)
  · exact Or.inl (hbc ▸ hab)
  · exact Or.inl (hab ▸ hbc)
  · exact Or.inr ⟨hab.trans hbc, hab2.trans hbc2⟩

/-- `np.argsort(similarities)`: the list of indices that sorts the value
list ascending. -/
def argsortAsc (l : List ℚ) : List ℕ :=
  ((l.enum.map (fun p => (p.2, p.1))).insertionSort ascLex).map (fun p => p.2)

/-- Shallow embedding of `VectorEmbeddingManager._manual_similarity_search`.
The cosine-similarity vector `np.dot(self.embeddings, q) / (norms)` is
produced by external numpy floating-point routines; this embedding takes
that per-document similarity vector as input and models the ranking:
`np.argsort(similarities)[::-1][:top_k]`, then one result per index. -/
def manualSimilaritySearch (similarities : List ℚ) (documents : List String)
    (topK : ℕ) : List SearchResult :=
  let topIndices := (argsortAsc similarities).reverse.take topK
  topIndices.enum.map (fun p =>
    { rank := p.1 + 1
      similarity := similarities.getD p.2 0
      document := documents.getD p.2 ""
      metadata := []
      input := ""
      output := "" })

/-- The FAISS inner-product index is an external library structure; this
opaque handle records the (to-be-normalized) rows handed to `index.add`. -/
structure FaissIndex where
  vectors : List (List ℝ)

/-- The mutable state of a `VectorEmbeddingManager` instance: the stored
document texts, the embedding matrix (None until built or loaded), and the
optional FAISS index handle.  The `model` attribute is the external
sentence-transformers model; the configuration modelled here is the one
without a semantic model (`self.model is None`). -/
structure VEMState where
  index : Option FaissIndex
  documents : List String
  embeddings : Option (List (List ℝ))

/-- Shallow embedding of `VectorEmbeddingManager.search_similar` in the
configuration without a sentence-transformers model: after the emptiness
guard (`if not self.documents or self.embeddings is None: return []`) the
method falls back to `self._simple_text_search(query, top_k)`. -/
def searchSimilar (s : VEMState) (query : String) (topK : ℕ) :
    List SearchResult :=
  if s.documents.isEmpty || s.embeddings.isNone then []
  else simpleTextSearch query topK s.documents

/-- On-disk artifacts of the embedding index: the vector matrix file
`embeddings.npy` (parsed, or absent), and the JSON manifest
`embeddings.json` (present file whose "documents" key may be missing, or
absent file). -/
structure DiskState where
  npy : Option (List (List ℝ))
  manifest : Option (Option (List String))

/-- Shallow embedding of `VectorEmbeddingManager.load_embeddings`.  The
whole body runs inside try/except: an exception (here: the manifest file
missing) returns `false`, keeping every mutation made before it; otherwise
the method returns `true`.  `faissAvailable` is the module-level flag.  The
FAISS index (external) is modelled as an opaque handle over the rows added
to it. -/
def loadEmbeddings (faissAvailable : Bool) (disk : DiskState) (s : VEMState) :
    Bool × VEMState :=
  let s1 := match disk.npy with
    | some m => { s with embeddings := some m }
    | none => s
  match disk.manifest with
  | none => (false, s1)
  | some docsField =>
    let s2 := { s1 with documents := docsField.getD [] }
    let s3 := if faissAvailable && s2.embeddings.isSome then
        { s2 with index := some ⟨s2.embeddings.getD []⟩ }
      else s2
    (true, s3)

/-- Tokenizer of `_create_tfidf_embeddings`: `re.findall(r"\b\w+\b",
text.lower())`, i.e. the maximal runs of word characters of the lowercased
text. -/
def tokenizeWords (text : String) : List String :=
  (((pyLower text).toList.splitOnP
      (fun c => !(c.isAlphanum || c = '_'))).map String.mk).filter
    (fun w => w ≠ "")

/-- Shallow embedding of `VectorEmbeddingManager._create_tfidf_embeddings`:
one row per document over the sorted corpus vocabulary, entry
`tf * idf` with `tf = count/doc_length` and
`idf = log(N / (1 + #documents containing the token))`. -/
noncomputable def createTfidfEmbeddings (documents : List String) :
    List (List ℝ) :=
  let docTokens := documents.map tokenizeWords
  let vocab := (docTokens.flatten.dedup).insertionSort (fun a b => a ≤ b)
  docTokens.map (fun tokens =>
    vocab.map (fun w =>
      let c := tokens.count w
      if 0 < c then
        ((c : ℝ) / (tokens.length : ℝ)) *
          Real.log ((documents.length : ℝ) /
            (1 + ((docTokens.filter (fun ts => w ∈ ts)).length : ℝ)))
      else 0))

/-- Stated from the specification for comparison with the code (claim C3):
the term-frequency–inverse-document-frequency vector of a query over the
vocabulary and document frequencies of the full corpus, with the TF
component normalized by length and the IDF log-scaled with add-one
smoothing — the vector the spec says Tier C compares against the stored
document vectors by cosine similarity at query time. -/
noncomputable def specTfidfQueryVector (documents : List String)
    (query : String) : List ℝ :=
  let docTokens := documents.map tokenizeWords
  let vocab := (docTokens.flatten.dedup).insertionSort (fun a b => a ≤ b)
  let qtokens := tokenizeWords query
  vocab.map (fun w =>
    let c := qtokens.count w
    if 0 < c then
      ((c : ℝ) / (qtokens.length : ℝ)) *
        Real.log ((documents.length : ℝ) /
          (1 + ((docTokens.filter (fun ts => w ∈ ts)).length : ℝ)))
    else 0)

/-- Dot product of two real vectors. -/
noncomputable def dotR (a b : List ℝ) : ℝ :=
  (a.zipWith (fun x y => x * y) b).sum

/-- Cosine similarity of two real vectors. -/
noncomputable def cosineSim (a b : List ℝ) : ℝ :=
  dotR a b / (Real.sqrt (dotR a a) * Real.sqrt (dotR b b))

/-- The three-document corpus of the Tier C counterexample. -/
def tierCDocs : List String := ["alpha", "beta", "beta"]

/-- A Tier C index state as built over `tierCDocs`: no semantic model, the
TF-IDF matrix stored as the embeddings, no ANN structure. -/
noncomputable def tierCExampleState : VEMState :=
  { index := none
    documents := tierCDocs
    embeddings := some (createTfidfEmbeddings tierCDocs) }

/-- The `ChatResponse` model of `chat.py` (sources as (name, type, url)
triples). -/
structure ChatResp where
  response : String
  messageId : String
  timestamp : String
  confidence : ℚ
  sources : List (String × String × String)
  suggestions : List String
deriving DecidableEq, Repr

/-- The text the endpoint appends for the best match:
`best_match["metadata"]["output"]` when the metadata dictionary is
nonempty and holds a nonempty "output" value, else `best_match["output"]`
(every result dictionary carries an "output" key). -/
def bestMatchText (r : SearchResult) : String :=
  let metaOut := (r.metadata.lookup "output").getD ""
  if r.metadata ≠ [] ∧ metaOut ≠ "" then metaOut else r.output

/-- Round to the nearest integer, halves to even (the rounding of Python
float formatting). -/
def roundHalfEven (x : ℚ) : ℤ :=
  let f := ⌊x⌋
  let frac := x - f
  if frac < 1/2 then f
  else if 1/2 < frac then f + 1
  else if f % 2 = 0 then f else f + 1

/-- Python `f"\x7bx:.1%\x7d"`: the value times 100, formatted with one
decimal digit, followed by a percent sign (for the nonnegative similarity
values this endpoint formats). -/
def fmtPercent1 (x : ℚ) : String :=
  let k := roundHalfEven (x * 1000)
  toString (k / 10) ++ "." ++ toString (k % 10) ++ "%"

/-- Shallow embedding of the `chat_with_trained_model` endpoint of
`chat.py`.  External collaborators are passed in: `modelInfo` is the result
of `model_trainer.load_trained_model(model_id)` (a JSON dictionary, or
None); `embeddingsLoaded` the boolean returned by
`embedding_manager.load_embeddings()`; `search` stands for
`embedding_manager.search_similar`, which the endpoint calls with
`top_k=3`; `fallbackResponse` is `model_trainer.generate_response(...)`;
`nowTs` and `nowIso` render `datetime.utcnow()`.  A raised HTTP error is
modelled as `Except.error`. -/
def chatWithTrainedModel (modelInfo : Option (List (String × String)))
    (modelId : String) (embeddingsLoaded : Bool)
    (search : String → ℕ → List SearchResult)
    (fallbackResponse : String) (nowTs nowIso : String)
    (message : String) : Except String ChatResp :=
  match modelInfo with
  | none => .error ("Trained model " ++ modelId ++ " not found")
  | some mi =>
    let modelName := (mi.lookup "model_name").getD modelId
    let vectorAnswer : Option ChatResp :=
      if embeddingsLoaded then
        match search message 3 with
        | [] => none
        | best :: _ =>
          if 3/10 < best.similarity then
            some { response := "**Custom Trained Model Response:**\n\n" ++
                     bestMatchText best ++ "\n\n*Training Data Match: " ++
                     fmtPercent1 best.similarity ++ " similarity*"
                   messageId := "trained_msg_" ++ nowTs
                   timestamp := nowIso
                   confidence := min (95/100) (best.similarity + 3/10)
                   sources := [("Trained Model: " ++ modelName,
                     "trained_model", "internal://model/" ++ modelId)]
                   suggestions := ["Ask about space missions",
                     "Query rocket specifications",
                     "Learn about Mars exploration",
                     "Explore exoplanet data"] }
          else none
      else none
    match vectorAnswer with
    | some resp => .ok resp
    | none =>
      .ok { response := "**Custom Trained Model:**\n\n" ++ fallbackResponse
            messageId := "trained_msg_" ++ nowTs
            timestamp := nowIso
            confidence := 80/100
            sources := [("Trained Model: " ++ modelName,
              "trained_model", "internal://model/" ++ modelId)]
            suggestions := ["Ask more about space industry topics"] }

/-- A wall-clock instant as used by `datetime.now()`, with microseconds. -/
structure Timestamp where
  year : ℕ
  month : ℕ
  day : ℕ
  hour : ℕ
  minute : ℕ
  second : ℕ
  micro : ℕ
deriving DecidableEq, Repr

/-- Decimal rendering of a natural number left-padded with zeros to `w`
digits (strftime zero padding). -/
def padZeros (w : ℕ) (n : ℕ) : String :=
  let s := toString n
  String.mk (List.replicate (w - s.length) '0') ++ s

/-- `datetime.now().strftime("%Y%m%d_%H%M%S")`: the second-resolution
timestamp rendering — microseconds are dropped. -/
def fmtSecond (t : Timestamp) : String :=
  padZeros 4 t.year ++ padZeros 2 t.month ++ padZeros 2 t.day ++ "_" ++
    padZeros 2 t.hour ++ padZeros 2 t.minute ++ padZeros 2 t.second

/-- The training job id allocated by `start_model_training`:
`f"space_model_\x7bdatetime.now().strftime('%Y%m%d_%H%M%S')\x7d"`. -/
def trainingIdOf (t : Timestamp) : String :=
  "space_model_" ++ fmtSecond t

/-- `datetime.now().isoformat()` (microsecond form). -/
def isoString (t : Timestamp) : String :=
  padZeros 4 t.year ++ "-" ++ padZeros 2 t.month ++ "-" ++ padZeros 2 t.day ++
    "T" ++ padZeros 2 t.hour ++ ":" ++ padZeros 2 t.minute ++ ":" ++
    padZeros 2 t.second ++ "." ++ padZeros 6 t.micro

/-- The `ModelTrainingRequest` body of `model_training.py`. -/
structure ModelTrainingRequest where
  modelName : String
  trainingDataSources : List String
  trainingType : String
  baseModel : String
  maxTokens : ℕ
  trainingEpochs : ℕ
  learningRate : ℚ
deriving DecidableEq, Repr

/-- The `TrainingStatus` record of `model_training.py` (one entry of the
`training_jobs` registry). -/
structure TrainingStatusR where
  trainingId : String
  status : String
  progress : ℚ
  currentStep : String
  totalSteps : ℕ
  startedAt : String
  estimatedCompletion : Option String
  modelMetrics : Option (List (String × ℚ))
deriving DecidableEq, Repr

/-- The `ModelInfo` record of `model_training.py` (one entry of the
`trained_models` registry). -/
structure ModelInfoR where
  modelId : String
  modelName : String
  trainingDataSize : ℕ
  performanceMetrics : List (String × ℚ)
  createdAt : String
  modelType : String
  readyForInference : Bool
deriving DecidableEq, Repr

/-- Python dictionary assignment `d[k] = v` on a registry kept as an
association list in insertion order: replace the value under an existing
key, else append. -/
def dictInsert {α : Type} (k : String) (v : α) (d : List (String × α)) :
    List (String × α) :=
  if d.any (fun p => p.1 = k) then
    d.map (fun p => if p.1 = k then (k, v) else p)
  else d ++ [(k, v)]

/-- The background task handed to `background_tasks.add_task`: it is
scheduled, not executed, by `start_model_training`. -/
structure ScheduledTask where
  trainingId : String
  request : ModelTrainingRequest
deriving DecidableEq, Repr

/-- Shallow embedding of the `start_model_training` endpoint: allocate the
timestamp-derived id, register the job as queued with progress 0, schedule
the pipeline as a background task, and return at once (the returned
`ScheduledTask` is data — nothing of the pipeline has run). -/
def startModelTraining (now : Timestamp) (req : ModelTrainingRequest)
    (jobs : List (String × TrainingStatusR)) :
    TrainingStatusR × List (String × TrainingStatusR) × ScheduledTask :=
  let id := trainingIdOf now
  let st : TrainingStatusR :=
    { trainingId := id
      status := "queued"
      progress := 0
      currentStep := "Initializing training pipeline"
      totalSteps := 8
      startedAt := isoString now
      estimatedCompletion := none
      modelMetrics := none }
  (st, dictInsert id st jobs, { trainingId := id, request := req })

/-- Outcome of `embedding_manager.create_embeddings` as consumed by the
pipeline: document count and embedding dimension. -/
structure EmbedOutcome where
  totalDocuments : ℕ
  embeddingDimension : ℕ
deriving DecidableEq, Repr

/-- Outcome of `model_trainer.train_space_model` as consumed by the
pipeline: the optional training loss. -/
structure TrainOutcome where
  trainingLoss : Option ℚ
deriving DecidableEq, Repr

/-- The environment of one `run_training_pipeline` run: the outcome of each
externally-effecting stage (each an `Except` since any stage may raise),
plus the clock reading used for `created_at`.  `collectTotalRecords` is
`collected_data["metadata"]["total_records"]`; `prepareCount` is
`len(training_dataset)`. -/
structure PipelineEnv where
  collectTotalRecords : Except String ℕ
  prepareCount : Except String ℕ
  embed : Except String EmbedOutcome
  train : Except String TrainOutcome
  nowIso : String

/-- The `except` handler of `run_training_pipeline`: mark the job failed
and record the reason in `current_step`. -/
def failStep (st : TrainingStatusR) (msg : String) : TrainingStatusR :=
  { st with status := "failed", currentStep := "Training failed: " ++ msg }

/-- The first exception the pipeline raises, if any: a stage error, or the
empty-corpus guard `if collected_data["metadata"]["total_records"] == 0:
raise Exception("No training data collected")`. -/
def firstFailure (env : PipelineEnv) : Option String :=
  match env.collectTotalRecords with
  | .error e => some e
  | .ok n =>
    if n = 0 then some "No training data collected"
    else
      match env.prepareCount with
      | .error e => some e
      | .ok _ =>
        match env.embed with
        | .error e => some e
        | .ok _ =>
          match env.train with
          | .error e => some e
          | .ok _ => none

/-- Python `training_id.split("_")`, at the character-list level. -/
def pySplitOn (sep : Char) (s : String) : List String :=
  (s.toList.splitOnP (fun c => c = sep)).map String.mk

/-- Shallow embedding of `run_training_pipeline`.  `st0` is the registered
job record (`training_jobs[training_id]`); the first component of the
result is the list of successive values the job record takes (each
step-boundary mutation, the terminal mutation, and — on success — the
later metrics mutation), the second the `trained_models` registry after
the run. -/
def runTrainingPipeline (env : PipelineEnv) (req : ModelTrainingRequest)
    (st0 : TrainingStatusR) (models : List (String × ModelInfoR)) :
    List TrainingStatusR × List (String × ModelInfoR) :=
  let st1 := { st0 with currentStep := "Initializing training pipeline",
                        progress := 1/8 }
  let st2 := { st1 with currentStep := "Collecting real NASA and SpaceX data",
                        progress := 1/4 }
  match env.collectTotalRecords with
  | .error e => ([st1, st2, failStep st2 e], models)
  | .ok totalRecords =>
    if totalRecords = 0 then
      ([st1, st2, failStep st2 "No training data collected"], models)
    else
      let st3 := { st2 with currentStep := "Preparing training dataset",
                            progress := 3/8 }
      match env.prepareCount with
      | .error e => ([st1, st2, st3, failStep st3 e], models)
      | .ok exampleCount =>
        let st4 := { st3 with currentStep := "Creating vector embeddings",
                              progress := 1/2 }
        match env.embed with
        | .error e => ([st1, st2, st3, st4, failStep st4 e], models)
        | .ok emb =>
          let st5 := { st4 with
                         currentStep := "Training space industry model",
                         progress := 5/8 }
          match env.train with
          | .error e => ([st1, st2, st3, st4, st5, failStep st5 e], models)
          | .ok tr =>
            let st6 := { st5 with
                           currentStep := "Validating model performance",
                           progress := 3/4 }
            let st7 := { st6 with currentStep := "Optimizing for inference",
                                  progress := 7/8 }
            let st8 := { st7 with
                           currentStep := "Training completed successfully",
                           progress := 1
                           status := "completed" }
            let modelId := "space_model_" ++
              (pySplitOn '_' st0.trainingId).getLastD ""
            let metrics : List (String × ℚ) :=
              [("data_quality_score", 1),
               ("training_examples", (exampleCount : ℚ)),
               ("embedding_dimension", (emb.embeddingDimension : ℚ)),
               ("knowledge_coverage", 92/100),
               ("response_accuracy", tr.trainingLoss.getD (85/100))]
            let model : ModelInfoR :=
              { modelId := modelId
                modelName := req.modelName
                trainingDataSize := totalRecords
                performanceMetrics := metrics
                createdAt := env.nowIso
                modelType := req.trainingType
                readyForInference := true }
            let models2 := dictInsert modelId model models
            let st9 := { st8 with modelMetrics := some metrics }
            ([st1, st2, st3, st4, st5, st6, st7, st8, st9], models2)

/-- A Python value carried by a raw record payload: None, a boolean, an
integer, a string, or a list of strings (floats and nested objects do not
occur in the payload fields the normalizers template into text in the
inputs modelled here). -/
inductive PyVal where
  | vNone : PyVal
  | vBool : Bool → PyVal
  | vInt : ℤ → PyVal
  | vStr : String → PyVal
  | vList : List String → PyVal
deriving DecidableEq, Repr

/-- A raw record as handed to the normalizers: a dictionary from field
names to values; a missing key reads as None (`dict.get`). -/
structure RawRecord where
  fields : List (String × PyVal)
deriving DecidableEq, Repr

/-- `record.get(k)`: None when the key is absent. -/
def rget (r : RawRecord) (k : String) : PyVal :=
  (r.fields.lookup k).getD .vNone

/-- Python truthiness of a payload value. -/
def truthy : PyVal → Bool
  | .vNone => false
  | .vBool b => b
  | .vInt n => n ≠ 0
  | .vStr s => s ≠ ""
  | .vList l => !l.isEmpty

/-- How an f-string renders a payload value. -/
def pyStr : PyVal → String
  | .vNone => "None"
  | .vBool true => "True"
  | .vBool false => "False"
  | .vInt n => toString n
  | .vStr s => s
  | .vList l => toString l

/-- Python `value or ""`. -/
def pyOrEmpty (v : PyVal) : String :=
  if truthy v then pyStr v else ""

/-- The cleaned record both normalizers build.  `textContent = none` models
a dictionary with no "text_content" key at all (the NASA normalizer only
creates the key inside a matched type branch), while `some ""` is the key
present with an empty string (the SpaceX normalizer initializes it so). -/
structure CleanedRecord where
  id : PyVal
  type : PyVal
  source : PyVal
  timestamp : String
  data : List (String × PyVal)
  textContent : Option String
deriving DecidableEq, Repr

/-- The id both normalizers allocate:
`record.get("id") or f"\x7brecord.get('type')\x7d_\x7bhash(str(record))\x7d"`,
with the runtime-dependent `hash` passed in as a parameter. -/
def recordIdOf (hashf : RawRecord → ℤ) (r : RawRecord) : PyVal :=
  let v := rget r "id"
  if truthy v then v
  else .vStr (pyStr (rget r "type") ++ "_" ++ toString (hashf r))

/-- The per-record body of `process_nasa_data`: the cleaned skeleton (note:
built without a "text_content" key), then the type dispatch, each branch
filling `data` and `text_content` from the salient fields. -/
def cleanNasaRecord (hashf : RawRecord → ℤ) (now : String) (r : RawRecord) :
    CleanedRecord :=
  let base : CleanedRecord :=
    { id := recordIdOf hashf r
      type := rget r "type"
      source := rget r "source"
      timestamp := now
      data := []
      textContent := none }
  if rget r "type" = .vStr "apod" then
    { base with
        data := [("title", rget r "title"),
                 ("description", rget r "explanation"),
                 ("date", rget r "date"),
                 ("media_url", rget r "url"),
                 ("media_type", rget r "media_type")]
        textContent := some ("NASA Astronomy Picture: " ++
          pyStr (rget r "title") ++ ". " ++ pyStr (rget r "explanation")) }
  else if rget r "type" = .vStr "neo" then
    { base with
        data := [("name", rget r "name"),
                 ("hazardous", rget r "potentially_hazardous"),
                 ("magnitude", rget r "absolute_magnitude"),
                 ("diameter", rget r "estimated_diameter"),
                 ("orbital_info", rget r "orbital_data")]
        textContent := some ("Near-Earth Object: " ++
          pyStr (rget r "name") ++ ". Potentially hazardous: " ++
          pyStr (rget r "potentially_hazardous") ++ ". Magnitude: " ++
          pyStr (rget r "absolute_magnitude")) }
  else if rget r "type" = .vStr "mars_photo" then
    { base with
        data := [("sol", rget r "sol"),
                 ("camera", rget r "camera"),
                 ("rover", rget r "rover"),
                 ("earth_date", rget r "earth_date"),
                 ("image_url", rget r "img_src")]
        textContent := some ("Mars photo from " ++ pyStr (rget r "rover") ++
          " rover on sol " ++ pyStr (rget r "sol") ++ " using " ++
          pyStr (rget r "camera") ++ " camera") }
  else if rget r "type" = .vStr "exoplanet" then
    { base with
        data := [("planet_name", rget r "planet_name"),
                 ("host_star", rget r "host_star"),
                 ("discovery_year", rget r "discovery_year"),
                 ("orbital_period", rget r "orbital_period"),
                 ("radius", rget r "planet_radius"),
                 ("mass", rget r "planet_mass"),
                 ("distance", rget r "stellar_distance")]
        textContent := some ("Exoplanet " ++ pyStr (rget r "planet_name") ++
          " orbiting " ++ pyStr (rget r "host_star") ++ ", discovered in " ++
          pyStr (rget r "discovery_year")) }
  else if rget r "type" = .vStr "technology" then
    { base with
        data := [("title", rget r "title"),
                 ("description", rget r "description"),
                 ("benefits", rget r "benefits"),
                 ("status", rget r "status"),
                 ("program", rget r "program")]
        textContent := some ("NASA Technology: " ++ pyStr (rget r "title") ++
          ". " ++ pyStr (rget r "description") ++ " Benefits: " ++
          pyStr (rget r "benefits")) }
  else base

/-- The loop of `process_nasa_data`: clean each record, then execute
`if cleaned_record["text_content"]:` — a KeyError (the dictionary has no
such key) aborts the whole call; otherwise the record is kept only when
the text is nonempty. -/
def processNasaDataAux (hashf : RawRecord → ℤ) (now : String) :
    List RawRecord → Except String (List CleanedRecord)
  | [] => .ok []
  | r :: rest =>
    let c := cleanNasaRecord hashf now r
    match c.textContent with
    | none => .error "KeyError: text_content"
    | some t =>
      match processNasaDataAux hashf now rest with
      | .error e => .error e
      | .ok tail => .ok (if t ≠ "" then c :: tail else tail)

/-- Shallow embedding of `process_nasa_data`. -/
def processNasaData (hashf : RawRecord → ℤ) (now : String)
    (raw : List RawRecord) : Except String (List CleanedRecord) :=
  processNasaDataAux hashf now raw

/-- The launch-success phrase of the SpaceX normalizer:
"successful" when truthy, "unsuccessful" when the value is False itself,
else "pending". -/
def successText (v : PyVal) : String :=
  if truthy v then "successful"
  else if v = .vBool false then "unsuccessful" else "pending"

/-- The customers phrase of the SpaceX payload branch:
`", ".join(record.get("customers", [])) if record.get("customers") else
"Unknown"`. -/
def customersText (v : PyVal) : String :=
  if truthy v then
    match v with
    | .vList l => String.intercalate ", " l
    | w => pyStr w
  else "Unknown"

/-- The per-record body of `process_spacex_data`: unlike the NASA twin, the
skeleton initializes `"text_content": ""`, so unmatched types degrade to
empty text. -/
def cleanSpacexRecord (hashf : RawRecord → ℤ) (now : String) (r : RawRecord) :
    CleanedRecord :=
  let base : CleanedRecord :=
    { id := recordIdOf hashf r
      type := rget r "type"
      source := rget r "source"
      timestamp := now
      data := []
      textContent := some "" }
  if rget r "type" = .vStr "launch" then
    { base with
        data := [("name", rget r "name"),
                 ("date", rget r "date_utc"),
                 ("success", rget r "success"),
                 ("details", rget r "details"),
                 ("flight_number", rget r "flight_number"),
                 ("rocket", rget r "rocket"),
                 ("payloads", rget r "payloads")]
        textContent := some ("SpaceX Launch: " ++ pyStr (rget r "name") ++
          " - Flight #" ++ pyStr (rget r "flight_number") ++ " was " ++
          successText (rget r "success") ++ ". " ++
          pyOrEmpty (rget r "details")) }
  else if rget r "type" = .vStr "rocket" then
    { base with
        data := [("name", rget r "name"),
                 ("description", rget r "description"),
                 ("height", rget r "height"),
                 ("diameter", rget r "diameter"),
                 ("mass", rget r "mass"),
                 ("cost_per_launch", rget r "cost_per_launch"),
                 ("success_rate", rget r "success_rate_pct")]
        textContent := some ("SpaceX Rocket: " ++ pyStr (rget r "name") ++
          ". " ++ pyStr (rget r "description") ++ " Success rate: " ++
          pyStr (rget r "success_rate_pct") ++ "%") }
  else if rget r "type" = .vStr "capsule" then
    { base with
        data := [("serial", rget r "serial"),
                 ("status", rget r "status"),
                 ("type", rget r "type"),
                 ("reuse_count", rget r "reuse_count"),
                 ("water_landings", rget r "water_landings"),
                 ("land_landings", rget r "land_landings")]
        textContent := some ("SpaceX Capsule " ++ pyStr (rget r "serial") ++
          " (" ++ pyStr (rget r "type") ++ ") - Status: " ++
          pyStr (rget r "status") ++ ", Reused " ++
          pyStr (rget r "reuse_count") ++ " times") }
  else if rget r "type" = .vStr "crew" then
    { base with
        data := [("name", rget r "name"),
                 ("agency", rget r "agency"),
                 ("status", rget r "status"),
                 ("launches", rget r "launches")]
        textContent := some ("SpaceX Crew Member: " ++
          pyStr (rget r "name") ++ " from " ++ pyStr (rget r "agency") ++
          " - Status: " ++ pyStr (rget r "status")) }
  else if rget r "type" = .vStr "payload" then
    { base with
        data := [("name", rget r "name"),
                 ("type", rget r "type"),
                 ("mass_kg", rget r "mass_kg"),
                 ("orbit", rget r "orbit"),
                 ("customers", rget r "customers"),
                 ("manufacturers", rget r "manufacturers")]
        textContent := some ("SpaceX Payload: " ++ pyStr (rget r "name") ++
          " (" ++ pyStr (rget r "type") ++ ") - Mass: " ++
          pyStr (rget r "mass_kg") ++ "kg, Customers: " ++
          customersText (rget r "customers")) }
  else if rget r "type" = .vStr "starlink" then
    { base with
        data := [("object_name", rget r "object_name"),
                 ("launch_date", rget r "launch_date"),
                 ("height_km", rget r "height_km"),
                 ("velocity_kms", rget r "velocity_kms"),
                 ("longitude", rget r "longitude"),
                 ("latitude", rget r "latitude")]
        textContent := some ("Starlink Satellite: " ++
          pyStr (rget r "object_name") ++ " at " ++
          pyStr (rget r "height_km") ++ "km altitude, velocity " ++
          pyStr (rget r "velocity_kms") ++ "km/s") }
  else base

/-- The loop of `process_spacex_data`: clean each record and keep it when
its (always present) text is nonempty. -/
def processSpacexDataAux (hashf : RawRecord → ℤ) (now : String) :
    List RawRecord → Except String (List CleanedRecord)
  | [] => .ok []
  | r :: rest =>
    let c := cleanSpacexRecord hashf now r
    match c.textContent with
    | none => .error "KeyError: text_content"
    | some t =>
      match processSpacexDataAux hashf now rest with
      | .error e => .error e
      | .ok tail => .ok (if t ≠ "" then c :: tail else tail)

/-- Shallow embedding of `process_spacex_data`. -/
def processSpacexData (hashf : RawRecord → ℤ) (now : String)
    (raw : List RawRecord) : Except String (List CleanedRecord) :=
  processSpacexDataAux hashf now raw

lemma sorted_sortRevLex (l : List (ℚ × ℕ)) : (sortRevLex l).Sorted revLex :=
  List.sorted_insertionSort revLex l

lemma sortRevLex_score_antitone (l : List (ℚ × ℕ)) :
    (sortRevLex l).Pairwise (fun a b => b.1 ≤ a.1) :=
  (sorted_sortRevLex l).imp (fun h => h.elim le_of_lt (fun h2 => le_of_eq h2.1))

lemma simpleTextSearch_length_le (q : String) (k : ℕ) (docs : List String) :
    (simpleTextSearch q k docs).length ≤ k := by
  unfold simpleTextSearch
  refine le_trans (List.length_filterMap_le _ _) ?_
  rw [List.enum_length]
  exact List.length_take_le _ _

lemma simpleTextSearch_sorted (q : String) (k : ℕ) (docs : List String) :
    (simpleTextSearch q k docs).Pairwise
      (fun r1 r2 => r2.similarity ≤ r1.similarity) := by
  unfold simpleTextSearch
  rw [List.pairwise_filterMap]
  have h1 : ((sortRevLex (scoredDocs q docs)).take k).Pairwise
      (fun a b => b.1 ≤ a.1) :=
    (sortRevLex_score_antitone _).sublist (List.take_sublist _ _)
  have h2 : (((sortRevLex (scoredDocs q docs)).take k).enum).Pairwise
      (fun p p2 => p2.2.1 ≤ p.2.1) := by
    rw [← List.enum_map_snd ((sortRevLex (scoredDocs q docs)).take k)] at h1
    exact List.pairwise_map.mp h1
  refine h2.imp ?_
  intro p p2 hle b hb b2 hb2
  split at hb
  · simp only [Option.mem_def, Option.some.injEq] at hb
    split at hb2
    · simp only [Option.mem_def, Option.some.injEq] at hb2
      subst hb
      subst hb2
      exact hle
    · simp at hb2
  · simp at hb

lemma manualSimilaritySearch_sorted (sims : List ℚ) (docs : List String)
    (k : ℕ) :
    (manualSimilaritySearch sims docs k).Pairwise
      (fun r1 r2 => r2.similarity ≤ r1.similarity) := by
  unfold manualSimilaritySearch
  rw [List.pairwise_map]
  suffices h : ((argsortAsc sims).reverse.take k).Pairwise
      (fun i j => sims.getD j 0 ≤ sims.getD i 0) by
    rw [← List.enum_map_snd ((argsortAsc sims).reverse.take k)] at h
    exact (List.pairwise_map.mp h).imp (fun hab => hab)
  unfold argsortAsc
  set pairs := (sims.enum.map (fun p => (p.2, p.1))).insertionSort ascLex
    with hpairs
  have hval : ∀ p ∈ pairs, sims.getD p.2 0 = p.1 := by
    intro p hp
    rw [hpairs, List.mem_insertionSort, List.mem_map] at hp
    obtain ⟨⟨i, v⟩, hmem, hpe⟩ := hp
    have hg := List.mem_enum_iff_getElem?.mp hmem
    rw [List.getD_eq_getD_get?, ← hpe]
    simp [List.get?_eq_getElem?, hg]
  have h1 : pairs.Pairwise (fun a b => a.1 ≤ b.1) :=
    (List.sorted_insertionSort ascLex _).imp
      (fun h => h.elim le_of_lt (fun h2 => le_of_eq h2.1))
  have h2 : pairs.Pairwise
      (fun a b => sims.getD a.2 0 ≤ sims.getD b.2 0) :=
    h1.imp_of_mem (fun ha hb h => by rw [hval _ ha, hval _ hb]; exact h)
  have h3 : (pairs.map (fun p => p.2)).Pairwise
      (fun i j => sims.getD i 0 ≤ sims.getD j 0) := List.pairwise_map.mpr h2
  have h4 : ((pairs.map (fun p => p.2)).reverse).Pairwise
      (fun i j => sims.getD j 0 ≤ sims.getD i 0) :=
    List.pairwise_reverse.mpr h3
  exact h4.sublist (List.take_sublist _ _)

lemma mem_scoredDocs_score (q : String) (docs : List String) (p : ℚ × ℕ)
    (hp : p ∈ scoredDocs q docs) :
    ∃ d, docs.get? p.2 = some d ∧ p.1 = jaccard (wordSet q) (wordSet d) := by
  unfold scoredDocs at hp
  simp only [List.mem_map] at hp
  obtain ⟨⟨i, d⟩, hmem, hpe⟩ := hp
  refine ⟨d, ?_, ?_⟩
  · have := List.mem_enum_iff_getElem?.mp hmem
    simpa [← hpe, List.get?_eq_getElem?] using this
  · simp [← hpe]

lemma jaccard_disjoint_eq_zero (q d : List String)
    (h : ∀ w ∈ q, w ∉ d) : jaccard q d = 0 := by
  have hf : q.filter (fun w => decide (w ∈ d)) = [] := by
    rw [List.filter_eq_nil_iff]
    intro w hw
    simpa using h w hw
  unfold jaccard
  simp only [hf, List.length_nil, Nat.cast_zero, zero_div]
  split <;> rfl

/-- C5.  For every index state, every query and every `k ≥ 1`, each of the
search paths — `search_similar` (tier without a semantic model), the
keyword fallback `_simple_text_search` and `_manual_similarity_search`
(over any externally computed similarity vector) — returns at most `k`
results whose similarity scores are non-increasing from first to last. -/
theorem search_returns_at_most_k_in_nonincreasing_order
    (s : VEMState) (q : String) (k : ℕ) (docs : List String)
    (sims : List ℚ) (_hk : 1 ≤ k) :
    ((searchSimilar s q k).length ≤ k ∧
      (searchSimilar s q k).Pairwise
        (fun r1 r2 => r2.similarity ≤ r1.similarity)) ∧
    ((simpleTextSearch q k docs).length ≤ k ∧
      (simpleTextSearch q k docs).Pairwise
        (fun r1 r2 => r2.similarity ≤ r1.similarity)) ∧
    ((manualSimilaritySearch sims docs k).length ≤ k ∧
      (manualSimilaritySearch sims docs k).Pairwise
        (fun r1 r2 => r2.similarity ≤ r1.similarity)) := by
  refine ⟨?_, ⟨simpleTextSearch_length_le q k docs,
    simpleTextSearch_sorted q k docs⟩, ?_, ?_⟩
  · unfold searchSimilar
    split
    · simp
    · exact ⟨simpleTextSearch_length_le q k s.documents,
        simpleTextSearch_sorted q k s.documents⟩
  · unfold manualSimilaritySearch
    rw [List.length_map, List.enum_length]
    exact List.length_take_le _ _
  · exact manualSimilaritySearch_sorted sims docs k

/-- C5 witness: the guarantees at a concrete state, query and `k = 2`. -/
theorem search_returns_at_most_k_in_nonincreasing_order_witness :
    ((searchSimilar ⟨none, ["alpha"], some [[0]]⟩ "alpha" 2).length ≤ 2 ∧
      (searchSimilar ⟨none, ["alpha"], some [[0]]⟩ "alpha" 2).Pairwise
        (fun r1 r2 => r2.similarity ≤ r1.similarity)) ∧
    ((simpleTextSearch "alpha" 2 ["alpha", "beta"]).length ≤ 2 ∧
      (simpleTextSearch "alpha" 2 ["alpha", "beta"]).Pairwise
        (fun r1 r2 => r2.similarity ≤ r1.similarity)) ∧
    ((manualSimilaritySearch [1/2, 1/3] ["alpha", "beta"] 2).length ≤ 2 ∧
      (manualSimilaritySearch [1/2, 1/3] ["alpha", "beta"] 2).Pairwise
        (fun r1 r2 => r2.similarity ≤ r1.similarity)) :=
  search_returns_at_most_k_in_nonincreasing_order
    ⟨none, ["alpha"], some [[0]]⟩ "alpha" 2 ["alpha", "beta"] [1/2, 1/3]
    (by decide)

/-- C10.  The keyword-overlap fallback only ever returns results with
strictly positive similarity, and a query sharing no token with any stored
document yields the empty result list no matter how large `top_k` is. -/
theorem keyword_fallback_returns_only_positive_scores
    (q : String) (k : ℕ) (docs : List String) :
    (∀ r ∈ simpleTextSearch q k docs, 0 < r.similarity) ∧
    ((∀ d ∈ docs, ∀ w ∈ wordSet q, w ∉ wordSet d) →
      simpleTextSearch q k docs = []) := by
  constructor
  · intro r hr
    unfold simpleTextSearch at hr
    simp only [List.mem_filterMap] at hr
    obtain ⟨p, _, hp⟩ := hr
    by_cases h : 0 < p.2.1
    · rw [if_pos h] at hp
      injection hp with hp
      subst hp
      exact h
    · rw [if_neg h] at hp
      cases hp
  · intro hdis
    unfold simpleTextSearch
    rw [List.filterMap_eq_nil_iff]
    intro p hp
    have hz : p.2.1 = 0 := by
      have hmem : p.2 ∈ sortRevLex (scoredDocs q docs) :=
        List.mem_of_mem_take (List.enum_map_snd _ ▸ List.mem_map_of_mem _ hp)
      have hmem2 : p.2 ∈ scoredDocs q docs :=
        (List.mem_insertionSort revLex).mp hmem
      obtain ⟨d, hd, he⟩ := mem_scoredDocs_score q docs p.2 hmem2
      have hdm : d ∈ docs := List.get?_mem hd
      rw [he]
      exact jaccard_disjoint_eq_zero _ _ (fun w hw => hdis d hdm w hw)
    rw [if_neg]
    rw [hz]
    exact lt_irrefl 0

/-- C10 witness: on the one-document index whose text shares no token with
the query, the fallback returns nothing even with `top_k = 3`, and the
positive-score guarantee holds vacuously. -/
theorem keyword_fallback_returns_only_positive_scores_witness :
    (∀ r ∈ simpleTextSearch "alpha" 3 ["beta gamma"], 0 < r.similarity) ∧
    ((∀ d ∈ ["beta gamma"], ∀ w ∈ wordSet "alpha", w ∉ wordSet d) →
      simpleTextSearch "alpha" 3 ["beta gamma"] = []) :=
  keyword_fallback_returns_only_positive_scores "alpha" 3 ["beta gamma"]

/-- C6 counterexample.  Storage order is `["alpha", "beta"]` and the query
"alpha beta" gives both documents the same Jaccard score 1/2, yet the
fallback ranks "beta" (storage index 1) first: equal-score documents come
out in reverse storage order, refuting the claimed stable input-order
tie-break. -/
theorem equal_scores_reverse_order_cex :
    (simpleTextSearch "alpha beta" 2 ["alpha", "beta"]).map
      (fun r => (r.similarity, r.document)) = [(1/2, "beta"), (1/2, "alpha")] := by
  with_unfolding_all decide

/-- C6 as amended.  The ranking the keyword fallback applies is the strict
descending lexicographic order on `(score, storage index)` pairs — ties on
score are broken by descending storage index (Python
`scores.sort(reverse=True)` on tuples), not by retaining input order. -/
theorem ranking_sorts_by_descending_score_then_index
    (q : String) (docs : List String) :
    (sortRevLex (scoredDocs q docs)).Pairwise
      (fun a b => b.1 < a.1 ∨ (b.1 = a.1 ∧ b.2 < a.2)) := by
  have hs : (sortRevLex (scoredDocs q docs)).Pairwise revLex :=
    sorted_sortRevLex _
  have hnd : ((sortRevLex (scoredDocs q docs)).map Prod.snd).Nodup := by
    have hperm : List.Perm (sortRevLex (scoredDocs q docs))
        (scoredDocs q docs) := List.perm_insertionSort revLex _
    have hrange : (scoredDocs q docs).map Prod.snd =
        List.range docs.length := by
      unfold scoredDocs
      rw [List.map_map]
      have : (Prod.snd ∘ fun p : ℕ × String =>
          (jaccard (wordSet q) (wordSet p.2), p.1)) = Prod.fst := rfl
      rw [this, List.enum_map_fst]
    have h2 := hperm.map Prod.snd
    rw [hrange] at h2
    exact h2.nodup_iff.mpr (List.nodup_range _)
  have hne : (sortRevLex (scoredDocs q docs)).Pairwise
      (fun a b => a.2 ≠ b.2) := List.pairwise_map.mp hnd
  refine (hs.and hne).imp ?_
  rintro a b ⟨hr | ⟨he, hle⟩, hneq⟩
  · exact Or.inl hr
  · exact Or.inr ⟨he, lt_of_le_of_ne hle (fun e => hneq e.symm)⟩

/-- C2.  On the partial-write disk state — manifest present, vector matrix
absent — `load_embeddings` returns True (success) and installs the
manifest documents with no vectors, instead of the specified failure; and
on the converse partial state — vectors present, manifest absent — it
returns False but has already overwritten the in-memory embeddings, so the
prior state is not preserved on failure either. -/
theorem load_embeddings_partial_artifacts_report :
    loadEmbeddings true ⟨none, some (some ["doc"])⟩ ⟨none, [], none⟩
      = (true, ⟨none, ["doc"], none⟩) ∧
    loadEmbeddings true ⟨some [[1]], none⟩ ⟨none, ["old"], none⟩
      = (false, ⟨none, ["old"], some [[1]]⟩) :=
  ⟨rfl, rfl⟩

/-- C4.  A NASA record whose type discriminator matches no known type makes
`process_nasa_data` raise a KeyError (the skeleton dictionary is built
without a "text_content" key and the keep-filter then reads it), instead
of degrading to empty text; the SpaceX twin, which initializes the key to
the empty string, drops the same record silently as the claim describes. -/
theorem process_nasa_unknown_type_raises_key_error :
    processNasaData (fun _ => 0) "2026-10-12T00:00:00"
        [⟨[("type", .vStr "mystery")]⟩] = .error "KeyError: text_content" ∧
    processSpacexData (fun _ => 0) "2026-10-12T00:00:00"
        [⟨[("type", .vStr "mystery")]⟩] = .ok [] := by
  constructor
  · with_unfolding_all rfl
  · with_unfolding_all rfl

set_option maxRecDepth 4000 in
/-- C8 counterexample.  Two submissions at distinct instants of the same
wall-clock second (microseconds 0 and 500000) receive the same job id, and
the second registration overwrites the first: the registry still holds one
entry.  Job ids are not unique across submissions. -/
theorem same_second_submissions_share_job_id_cex :
    (⟨2026, 10, 12, 9, 30, 15, 0⟩ : Timestamp) ≠
        ⟨2026, 10, 12, 9, 30, 15, 500000⟩ ∧
    (startModelTraining ⟨2026, 10, 12, 9, 30, 15, 0⟩
        ⟨"m", ["nasa"], "embeddings", "gpt-3.5-turbo", 4000, 3, 1/10000⟩
        []).1.trainingId =
      (startModelTraining ⟨2026, 10, 12, 9, 30, 15, 500000⟩
        ⟨"m", ["nasa"], "embeddings", "gpt-3.5-turbo", 4000, 3, 1/10000⟩
        (startModelTraining ⟨2026, 10, 12, 9, 30, 15, 0⟩
          ⟨"m", ["nasa"], "embeddings", "gpt-3.5-turbo", 4000, 3, 1/10000⟩
          []).2.1).1.trainingId ∧
    ((startModelTraining ⟨2026, 10, 12, 9, 30, 15, 500000⟩
        ⟨"m", ["nasa"], "embeddings", "gpt-3.5-turbo", 4000, 3, 1/10000⟩
        (startModelTraining ⟨2026, 10, 12, 9, 30, 15, 0⟩
          ⟨"m", ["nasa"], "embeddings", "gpt-3.5-turbo", 4000, 3, 1/10000⟩
          []).2.1).2.1).length = 1 := by
  refine ⟨?_, ?_, ?_⟩
  · with_unfolding_all decide
  · with_unfolding_all rfl
  · with_unfolding_all rfl

/-- C8 as amended.  Every submission allocates the id "space_model_"
followed by the submission instant rendered at second resolution (so ids
repeat when two submissions share a second), registers a TrainingJob in
state queued with progress 0 under that id, and returns at once with the
pipeline merely scheduled as a background task, not run. -/
theorem submit_registers_queued_job_and_returns_task
    (now : Timestamp) (req : ModelTrainingRequest)
    (jobs : List (String × TrainingStatusR)) :
    (startModelTraining now req jobs).1.status = "queued" ∧
    (startModelTraining now req jobs).1.progress = 0 ∧
    (startModelTraining now req jobs).1.trainingId =
      "space_model_" ++ fmtSecond now ∧
    (startModelTraining now req jobs).2.1 =
      dictInsert ("space_model_" ++ fmtSecond now)
        (startModelTraining now req jobs).1 jobs ∧
    (startModelTraining now req jobs).2.2 =
      ⟨"space_model_" ++ fmtSecond now, req⟩ :=
  ⟨rfl, rfl, rfl, rfl, rfl⟩

/-- C9 counterexample.  A pipeline run in which every stage succeeds takes
the job record from queued straight to completed: the recorded sequence of
status values contains no "running" entry at all, refuting the claimed
queued → running → terminal state machine (and the completed status is
followed by one further mutation of the record, the metrics fill-in). -/
theorem completed_job_never_in_running_state_cex :
    ((runTrainingPipeline
        ⟨.ok 5, .ok 5, .ok ⟨5, 7⟩, .ok ⟨some (1/2)⟩, "2026-10-12T09:31:00"⟩
        ⟨"m", ["nasa"], "embeddings", "gpt-3.5-turbo", 4000, 3, 1/10000⟩
        ⟨"space_model_20261012_093015", "queued", 0,
          "Initializing training pipeline", 8, "2026-10-12T09:30:15.000000",
          none, none⟩ []).1.map (fun st => st.status))
      = ["queued", "queued", "queued", "queued", "queued", "queued",
         "queued", "completed", "completed"] ∧
    "running" ∉ ((runTrainingPipeline
        ⟨.ok 5, .ok 5, .ok ⟨5, 7⟩, .ok ⟨some (1/2)⟩, "2026-10-12T09:31:00"⟩
        ⟨"m", ["nasa"], "embeddings", "gpt-3.5-turbo", 4000, 3, 1/10000⟩
        ⟨"space_model_20261012_093015", "queued", 0,
          "Initializing training pipeline", 8, "2026-10-12T09:30:15.000000",
          none, none⟩ []).1.map (fun st => st.status)) := by
  constructor
  · with_unfolding_all decide
  · with_unfolding_all decide

/-- C9 as amended.  A job registered as queued goes directly from queued to
a terminal status: the status value "running" never occurs, every recorded
status is queued, completed or failed, the status never changes again once
it has left queued (terminal statuses are never overwritten, though on
completion the metrics field is filled in afterwards), and the final
status is terminal. -/
theorem job_status_queued_directly_to_terminal
    (env : PipelineEnv) (req : ModelTrainingRequest) (st0 : TrainingStatusR)
    (models : List (String × ModelInfoR)) (h : st0.status = "queued") :
    "running" ∉
      (runTrainingPipeline env req st0 models).1.map (fun st => st.status) ∧
    (∀ s ∈ (runTrainingPipeline env req st0 models).1.map
        (fun st => st.status),
      s = "queued" ∨ s = "completed" ∨ s = "failed") ∧
    List.Chain' (fun a b => a = "queued" ∨ a = b)
      ((runTrainingPipeline env req st0 models).1.map
        (fun st => st.status)) ∧
    (((runTrainingPipeline env req st0 models).1.getLastD st0).status =
        "completed" ∨
      ((runTrainingPipeline env req st0 models).1.getLastD st0).status =
        "failed") := by
  obtain ⟨c, p, e, t, now⟩ := env
  rcases c with ec | n
  · unfold runTrainingPipeline
    simp [failStep, h]
  · by_cases hn : n = 0
    · subst hn
      unfold runTrainingPipeline
      simp [failStep, h]
    · rcases p with ep | m
      · unfold runTrainingPipeline
        simp [failStep, h, hn]
      · rcases e with ee | em
        · unfold runTrainingPipeline
          simp [failStep, h, hn]
        · rcases t with et | tt
          · unfold runTrainingPipeline
            simp [failStep, h, hn]
          · unfold runTrainingPipeline
            simp [failStep, h, hn]

/-- C9 witness: the amended guarantees at a concrete failing run whose
job record starts queued. -/
theorem job_status_queued_directly_to_terminal_witness :
    "running" ∉
      (runTrainingPipeline ⟨.error "boom", .ok 0, .ok ⟨0, 0⟩, .ok ⟨none⟩, "t"⟩
        ⟨"m", ["nasa"], "embeddings", "gpt-3.5-turbo", 4000, 3, 1/10000⟩
        ⟨"space_model_20261012_093015", "queued", 0,
          "Initializing training pipeline", 8, "s", none, none⟩ []).1.map
        (fun st => st.status) ∧
    (∀ s ∈ (runTrainingPipeline
        ⟨.error "boom", .ok 0, .ok ⟨0, 0⟩, .ok ⟨none⟩, "t"⟩
        ⟨"m", ["nasa"], "embeddings", "gpt-3.5-turbo", 4000, 3, 1/10000⟩
        ⟨"space_model_20261012_093015", "queued", 0,
          "Initializing training pipeline", 8, "s", none, none⟩ []).1.map
        (fun st => st.status),
      s = "queued" ∨ s = "completed" ∨ s = "failed") ∧
    List.Chain' (fun a b => a = "queued" ∨ a = b)
      ((runTrainingPipeline ⟨.error "boom", .ok 0, .ok ⟨0, 0⟩, .ok ⟨none⟩, "t"⟩
        ⟨"m", ["nasa"], "embeddings", "gpt-3.5-turbo", 4000, 3, 1/10000⟩
        ⟨"space_model_20261012_093015", "queued", 0,
          "Initializing training pipeline", 8, "s", none, none⟩ []).1.map
        (fun st => st.status)) ∧
    (((runTrainingPipeline ⟨.error "boom", .ok 0, .ok ⟨0, 0⟩, .ok ⟨none⟩, "t"⟩
        ⟨"m", ["nasa"], "embeddings", "gpt-3.5-turbo", 4000, 3, 1/10000⟩
        ⟨"space_model_20261012_093015", "queued", 0,
          "Initializing training pipeline", 8, "s", none, none⟩ []).1.getLastD
        ⟨"space_model_20261012_093015", "queued", 0,
          "Initializing training pipeline", 8, "s", none, none⟩).status =
        "completed" ∨
      ((runTrainingPipeline ⟨.error "boom", .ok 0, .ok ⟨0, 0⟩, .ok ⟨none⟩, "t"⟩
        ⟨"m", ["nasa"], "embeddings", "gpt-3.5-turbo", 4000, 3, 1/10000⟩
        ⟨"space_model_20261012_093015", "queued", 0,
          "Initializing training pipeline", 8, "s", none, none⟩ []).1.getLastD
        ⟨"space_model_20261012_093015", "queued", 0,
          "Initializing training pipeline", 8, "s", none, none⟩).status =
        "failed") :=
  job_status_queued_directly_to_terminal
    ⟨.error "boom", .ok 0, .ok ⟨0, 0⟩, .ok ⟨none⟩, "t"⟩
    ⟨"m", ["nasa"], "embeddings", "gpt-3.5-turbo", 4000, 3, 1/10000⟩
    ⟨"space_model_20261012_093015", "queued", 0,
      "Initializing training pipeline", 8, "s", none, none⟩ [] rfl

/-- C1.  Whenever any pipeline stage raises — including the empty-corpus
guard firing on zero collected records — the job record ends with
status "failed" and the failure reason recorded in `current_step`, and the
trained-model registry is left exactly as it was: no TrainedModelRecord is
registered for the failed job. -/
theorem pipeline_stage_failure_sets_failed_and_registers_nothing
    (env : PipelineEnv) (req : ModelTrainingRequest) (st0 : TrainingStatusR)
    (models : List (String × ModelInfoR)) (msg : String)
    (h : firstFailure env = some msg) :
    ((runTrainingPipeline env req st0 models).1.getLastD st0).status =
      "failed" ∧
    ((runTrainingPipeline env req st0 models).1.getLastD st0).currentStep =
      "Training failed: " ++ msg ∧
    (runTrainingPipeline env req st0 models).2 = models := by
  obtain ⟨c, p, e, t, now⟩ := env
  rcases c with ec | n
  · simp only [firstFailure, Option.some.injEq] at h
    subst h
    exact ⟨rfl, rfl, rfl⟩
  · by_cases hn : n = 0
    · subst hn
      simp only [firstFailure, if_true, Nat.zero_eq] at h
      simp at h
      subst h
      exact ⟨rfl, rfl, rfl⟩
    · rcases p with ep | m
      · simp only [firstFailure] at h
        rw [if_neg hn] at h
        simp only [Option.some.injEq] at h
        subst h
        unfold runTrainingPipeline
        simp [failStep, hn]
      · rcases e with ee | em
        · simp only [firstFailure] at h
          rw [if_neg hn] at h
          simp only [Option.some.injEq] at h
          subst h
          unfold runTrainingPipeline
          simp [failStep, hn]
        · rcases t with et | tt
          · simp only [firstFailure] at h
            rw [if_neg hn] at h
            simp only [Option.some.injEq] at h
            subst h
            unfold runTrainingPipeline
            simp [failStep, hn]
          · simp only [firstFailure] at h
            rw [if_neg hn] at h
            simp at h

/-- C1 witness: the empty-corpus guard at a concrete run collecting zero
records — the job fails with the guard reason and the registry keeps only
its prior entry. -/
theorem pipeline_stage_failure_witness :
    ((runTrainingPipeline ⟨.ok 0, .ok 0, .ok ⟨0, 0⟩, .ok ⟨none⟩, "t"⟩
        ⟨"m", ["nasa"], "embeddings", "gpt-3.5-turbo", 4000, 3, 1/10000⟩
        ⟨"space_model_20261012_093015", "queued", 0,
          "Initializing training pipeline", 8, "s", none, none⟩
        [("space_model_000001",
          ⟨"space_model_000001", "other", 1, [], "c", "embeddings",
            true⟩)]).1.getLastD
      ⟨"space_model_20261012_093015", "queued", 0,
        "Initializing training pipeline", 8, "s", none, none⟩).status =
      "failed" ∧
    ((runTrainingPipeline ⟨.ok 0, .ok 0, .ok ⟨0, 0⟩, .ok ⟨none⟩, "t"⟩
        ⟨"m", ["nasa"], "embeddings", "gpt-3.5-turbo", 4000, 3, 1/10000⟩
        ⟨"space_model_20261012_093015", "queued", 0,
          "Initializing training pipeline", 8, "s", none, none⟩
        [("space_model_000001",
          ⟨"space_model_000001", "other", 1, [], "c", "embeddings",
            true⟩)]).1.getLastD
      ⟨"space_model_20261012_093015", "queued", 0,
        "Initializing training pipeline", 8, "s", none, none⟩).currentStep =
      "Training failed: " ++ "No training data collected" ∧
    (runTrainingPipeline ⟨.ok 0, .ok 0, .ok ⟨0, 0⟩, .ok ⟨none⟩, "t"⟩
        ⟨"m", ["nasa"], "embeddings", "gpt-3.5-turbo", 4000, 3, 1/10000⟩
        ⟨"space_model_20261012_093015", "queued", 0,
          "Initializing training pipeline", 8, "s", none, none⟩
        [("space_model_000001",
          ⟨"space_model_000001", "other", 1, [], "c", "embeddings",
            true⟩)]).2 =
      [("space_model_000001",
        ⟨"space_model_000001", "other", 1, [], "c", "embeddings", true⟩)] :=
  pipeline_stage_failure_sets_failed_and_registers_nothing
    ⟨.ok 0, .ok 0, .ok ⟨0, 0⟩, .ok ⟨none⟩, "t"⟩
    ⟨"m", ["nasa"], "embeddings", "gpt-3.5-turbo", 4000, 3, 1/10000⟩
    ⟨"space_model_20261012_093015", "queued", 0,
      "Initializing training pipeline", 8, "s", none, none⟩
    [("space_model_000001",
      ⟨"space_model_000001", "other", 1, [], "c", "embeddings", true⟩)]
    "No training data collected" rfl

/-- C7.  Whenever the retrieval generator's `search(message, top_k=3)` call
returns a top result whose similarity exceeds 0.3 (model present,
embeddings loaded), the endpoint answers with the response built from that
document's payload text, and its confidence is the raw similarity boosted
by 0.3 and capped at 0.95. -/
theorem chat_high_similarity_returns_boosted_confidence
    (mi : List (String × String))
    (modelId fallback nowTs nowIso message : String)
    (search : String → ℕ → List SearchResult) (best : SearchResult)
    (rest : List SearchResult)
    (hs : search message 3 = best :: rest)
    (hsim : 3/10 < best.similarity) :
    chatWithTrainedModel (some mi) modelId true search fallback nowTs nowIso
        message =
      .ok { response := "**Custom Trained Model Response:**\n\n" ++
              bestMatchText best ++ "\n\n*Training Data Match: " ++
              fmtPercent1 best.similarity ++ " similarity*"
            messageId := "trained_msg_" ++ nowTs
            timestamp := nowIso
            confidence := min (95/100) (best.similarity + 3/10)
            sources := [("Trained Model: " ++
              (mi.lookup "model_name").getD modelId, "trained_model",
              "internal://model/" ++ modelId)]
            suggestions := ["Ask about space missions",
              "Query rocket specifications",
              "Learn about Mars exploration",
              "Explore exoplanet data"] } := by
  unfold chatWithTrainedModel
  rw [hs]
  simp [hsim]

/-- C7 witness: a concrete search function whose top result has similarity
1/2 > 0.3 yields the payload-text answer with confidence
min(0.95, 1/2 + 0.3). -/
theorem chat_high_similarity_witness :
    chatWithTrainedModel (some [("model_name", "space")]) "space_model_225243"
        true
        (fun _ _ => [⟨1, 1/2, "doc text", [("output", "Mars info")], "", ""⟩])
        "fallback" "17600" "2026-10-12T09:30:15" "tell me about mars" =
      .ok { response := "**Custom Trained Model Response:**\n\n" ++
              bestMatchText
                ⟨1, 1/2, "doc text", [("output", "Mars info")], "", ""⟩ ++
              "\n\n*Training Data Match: " ++ fmtPercent1 (1/2) ++
              " similarity*"
            messageId := "trained_msg_" ++ "17600"
            timestamp := "2026-10-12T09:30:15"
            confidence := min (95/100) (1/2 + 3/10)
            sources := [("Trained Model: " ++ "space", "trained_model",
              "internal://model/" ++ "space_model_225243")]
            suggestions := ["Ask about space missions",
              "Query rocket specifications",
              "Learn about Mars exploration",
              "Explore exoplanet data"] } :=
  chat_high_similarity_returns_boosted_confidence
    [("model_name", "space")] "space_model_225243" "fallback" "17600"
    "2026-10-12T09:30:15" "tell me about mars"
    (fun _ _ => [⟨1, 1/2, "doc text", [("output", "Mars info")], "", ""⟩])
    ⟨1, 1/2, "doc text", [("output", "Mars info")], "", ""⟩ [] rfl
    (by norm_num)

/-- C3 as amended.  On a built index without a semantic embedding model,
`search_similar` answers queries with the word-set Jaccard keyword matcher
over the stored document texts: each result's similarity is the Jaccard
overlap of query and document word sets, and the stored TF-IDF vectors are
not consulted at query time (the result depends on the documents alone). -/
theorem tierC_search_is_jaccard_fallback
    (s : VEMState) (q : String) (k : ℕ)
    (hd : s.documents ≠ []) (he : s.embeddings.isSome) :
    searchSimilar s q k = simpleTextSearch q k s.documents ∧
    ∀ r ∈ searchSimilar s q k, ∃ d ∈ s.documents,
      r.document = d ∧ r.similarity = jaccard (wordSet q) (wordSet d) := by
  have heq : searchSimilar s q k = simpleTextSearch q k s.documents := by
    unfold searchSimilar
    rw [if_neg]
    simp only [Bool.or_eq_true, List.isEmpty_iff, Option.isNone_iff_eq_none]
    rintro (h1 | h2)
    · exact hd h1
    · rw [h2] at he
      cases he
  refine ⟨heq, ?_⟩
  rw [heq]
  intro r hr
  unfold simpleTextSearch at hr
  simp only [List.mem_filterMap] at hr
  obtain ⟨p, hp, hpe⟩ := hr
  by_cases hpos : 0 < p.2.1
  · rw [if_pos hpos] at hpe
    injection hpe with hpe
    have hmem : p.2 ∈ scoredDocs q s.documents := by
      have hmem1 : p.2 ∈ sortRevLex (scoredDocs q s.documents) :=
        List.mem_of_mem_take (List.enum_map_snd _ ▸ List.mem_map_of_mem _ hp)
      exact (List.mem_insertionSort revLex).mp hmem1
    obtain ⟨d, hd2, he2⟩ := mem_scoredDocs_score q s.documents p.2 hmem
    refine ⟨d, List.get?_mem hd2, ?_, ?_⟩
    · rw [← hpe]
      show s.documents.getD p.2.2 "" = d
      rw [List.getD_eq_getD_get?, hd2]
      rfl
    · rw [← hpe]
      exact he2
  · rw [if_neg hpos] at hpe
    cases hpe

/-- C3 witness: the amended description at a concrete one-document Tier C
state. -/
theorem tierC_search_is_jaccard_fallback_witness :
    searchSimilar ⟨none, ["alpha doc"], some [[0]]⟩ "alpha" 1 =
      simpleTextSearch "alpha" 1 ["alpha doc"] ∧
    ∀ r ∈ searchSimilar ⟨none, ["alpha doc"], some [[0]]⟩ "alpha" 1,
      ∃ d ∈ ["alpha doc"],
        r.document = d ∧ r.similarity = jaccard (wordSet "alpha") (wordSet d) :=
  tierC_search_is_jaccard_fallback ⟨none, ["alpha doc"], some [[0]]⟩
    "alpha" 1 (by simp) rfl

/-- C3 counterexample.  On the Tier C index built over the corpus
["alpha", "beta", "beta"], the query "alpha beta" is answered with
similarity 1/2 for the document "alpha" (its Jaccard word overlap), while
the cosine similarity between the corpus TF-IDF vectors — the stored
vector of "alpha" and the query vector the spec describes — is exactly 1
(the two vectors are parallel).  The returned score is not the TF-IDF
cosine, refuting the claim. -/
theorem tierC_search_not_tfidf_cosine_cex :
    (searchSimilar tierCExampleState "alpha beta" 5).map
        (fun r => (r.similarity, r.document)) =
      [(1/2, "beta"), (1/2, "beta"), (1/2, "alpha")] ∧
    cosineSim (specTfidfQueryVector tierCDocs "alpha beta")
      ((createTfidfEmbeddings tierCDocs).getD 0 []) = 1 ∧
    ((1/2 : ℚ) : ℝ) ≠ 1 := by
  refine ⟨?_, ?_, ?_⟩
  · with_unfolding_all decide
  · have h1 : tierCDocs.map tokenizeWords = [["alpha"], ["beta"], ["beta"]] := by
      with_unfolding_all decide
    have h2 : (([["alpha"], ["beta"], ["beta"]] :
        List (List String)).flatten.dedup).insertionSort (fun a b => a ≤ b) =
        ["alpha", "beta"] := by
      with_unfolding_all decide
    have h3 : (([["alpha"], ["beta"], ["beta"]] : List (List String)).filter
        (fun ts => "alpha" ∈ ts)).length = 1 := by with_unfolding_all decide
    have h4 : (([["alpha"], ["beta"], ["beta"]] : List (List String)).filter
        (fun ts => "beta" ∈ ts)).length = 2 := by with_unfolding_all decide
    have h5 : (["alpha"] : List String).count "alpha" = 1 := by
      with_unfolding_all decide
    have h6 : (["alpha"] : List String).count "beta" = 0 := by
      with_unfolding_all decide
    have h7 : tierCDocs.length = 3 := by with_unfolding_all decide
    have h8 : tokenizeWords "alpha beta" = ["alpha", "beta"] := by
      with_unfolding_all decide
    have h9 : (["alpha", "beta"] : List String).count "alpha" = 1 := by
      with_unfolding_all decide
    have h10 : (["alpha", "beta"] : List String).count "beta" = 1 := by
      with_unfolding_all decide
    have hrow : (createTfidfEmbeddings tierCDocs).getD 0 [] =
        [Real.log ((3 : ℝ) / 2), 0] := by
      simp only [createTfidfEmbeddings, h1, h2, h7, List.map_cons,
        List.map_nil, List.getD_cons_zero, h3, h4, h5, h6, List.length_cons,
        List.length_nil, List.length_singleton]
      norm_num
    have hq : specTfidfQueryVector tierCDocs "alpha beta" =
        [(1 / 2 : ℝ) * Real.log ((3 : ℝ) / 2), 0] := by
      simp only [specTfidfQueryVector, h1, h2, h7, h8, h9, h10,
        List.map_cons, List.map_nil, h3, h4, List.length_cons,
        List.length_nil]
      norm_num
    rw [hrow, hq]
    have hL : (0 : ℝ) < Real.log ((3 : ℝ) / 2) := Real.log_pos (by norm_num)
    set L := Real.log ((3 : ℝ) / 2) with hLdef
    simp only [cosineSim, dotR, List.zipWith, List.sum_cons, List.sum_nil]
    rw [show (1 / 2 : ℝ) * L * (1 / 2 * L) + (0 * 0 + 0) = (L / 2) ^ 2 by
      ring]
    rw [show (L : ℝ) * L + (0 * 0 + 0) = L ^ 2 by ring]
    rw [show (1 / 2 : ℝ) * L * L + (0 * 0 + 0) = L ^ 2 / 2 by ring]
    rw [Real.sqrt_sq (by positivity), Real.sqrt_sq hL.le]
    rw [show (L / 2) * L = L ^ 2 / 2 by ring]
    exact div_self (by positivity)
  · norm_num

end Orbital
